import Mathlib

/-!
Verification development for a small web application (src/app.py) that lets an
operator view MikroTik router interfaces and replace the IP address bound to an
interface.  The Python handlers are embedded shallowly: the router transport is
modelled as a fake device with fault injection, each handler becomes a pure
function returning the HTTP outcome, the flashed messages, the session and
device states, and the trace of router-protocol events.
-/

/-! ## Python string primitives -/

/-- The whitespace characters removed by Python `str.strip()`. -/
def isPySpace (c : Char) : Bool :=
  c = ' ' || c = '\t' || c = '\n' || c = '\r' || c = '\x0b' || c = '\x0c'

/-- Python `str.strip()` on a character list. -/
def pyStripList (cs : List Char) : List Char :=
  ((cs.dropWhile isPySpace).reverse.dropWhile isPySpace).reverse

/-- Python `str.strip()` (ASCII whitespace; the app only strips form fields). -/
def pyStrip (s : String) : String :=
  String.mk (pyStripList s.data)

/-- Python `str.split(sep)` for a single-character separator: always returns a
nonempty list of (possibly empty) fragments. -/
def splitOnChar (sep : Char) : List Char → List (List Char)
  | [] => [[]]
  | c :: rest =>
    match splitOnChar sep rest with
    | [] => [[]]
    | p :: ps => if c = sep then [] :: p :: ps else (c :: p) :: ps

/-- Python `str.partition(sep)` for a single-character separator: the part
before the first occurrence, and (when the separator occurs) the part after. -/
def partitionChar (sep : Char) : List Char → List Char × Option (List Char)
  | [] => ([], none)
  | c :: rest =>
    if c = sep then ([], some rest)
    else
      match partitionChar sep rest with
      | (a, b) => (c :: a, b)

/-- Decimal value of a digit list (callers check the digits first). -/
def decVal (cs : List Char) : Nat :=
  cs.foldl (fun a c => a * 10 + (c.toNat - 48)) 0

/-- ASCII hexadecimal digit test. -/
def isHexChar (c : Char) : Bool :=
  c.isDigit || ('a' ≤ c && c ≤ 'f') || ('A' ≤ c && c ≤ 'F')

/-- Value of one hexadecimal digit. -/
def hexVal (c : Char) : Nat :=
  if c.isDigit then c.toNat - 48
  else if 'a' ≤ c && c ≤ 'f' then c.toNat - 87
  else c.toNat - 55

/-- Lowercase hexadecimal digit character for a value below 16. -/
def hexDigitChar (n : Nat) : Char :=
  if n < 10 then Char.ofNat (48 + n) else Char.ofNat (87 + n)

/-- Fuel-driven core of the lowercase hexadecimal printer. -/
def natToHexAux : Nat → Nat → List Char → List Char
  | 0, _, acc => acc
  | fuel + 1, n, acc =>
    if n = 0 then acc else natToHexAux fuel (n / 16) (hexDigitChar (n % 16) :: acc)

/-- Python `'%x' % n`: lowercase hexadecimal, no leading zeros, `0` for zero. -/
def natToHex (n : Nat) : List Char :=
  if n = 0 then ['0'] else natToHexAux (n + 1) n []

/-- Digit-sequence part of Python `int(str)`: ASCII digits with single
underscores permitted between digits only.  The boolean state records whether
the previous character was a digit. -/
def pyIntDigitsAux : Nat → Bool → List Char → Option Nat
  | acc, prevDigit, [] => if prevDigit then some acc else none
  | acc, prevDigit, c :: rest =>
    if c.isDigit then pyIntDigitsAux (acc * 10 + (c.toNat - 48)) true rest
    else if c = '_' then
      if prevDigit then pyIntDigitsAux acc false rest else none
    else none

/-- Python `int(str)` (ASCII digits): optional surrounding whitespace, optional
sign, then a digit sequence with single underscores between digits. -/
def pyInt (s : String) : Option Int :=
  match pyStripList s.data with
  | [] => none
  | c :: rest =>
    if c = '-' then (pyIntDigitsAux 0 false rest).map (fun n => -(n : Int))
    else if c = '+' then (pyIntDigitsAux 0 false rest).map (fun n => (n : Int))
    else (pyIntDigitsAux 0 false (c :: rest)).map (fun n => (n : Int))

/-! ## Embedding of `ipaddress` (CPython standard library, as used by app.py)

`update_ip` validates the submitted address with `ipaddress.ip_interface`,
which accepts a string exactly when `IPv4Interface` or `IPv6Interface`
accepts it.  The definitions below follow CPython's `ipaddress` parsing
routines (`_parse_octet`, `_ip_int_from_string`, `_parse_hextet`,
`_prefix_from_prefix_string`, `_prefix_from_ip_int`, `_split_addr_prefix`,
`_split_scope_id`). -/

/-- CPython `IPv4Address._parse_octet`: nonempty, ASCII digits only, at most
three characters, no leading zero, value at most 255. -/
def parseOctet (cs : List Char) : Option Nat :=
  if cs.isEmpty then none
  else if !(cs.all Char.isDigit) then none
  else if 3 < cs.length then none
  else if 1 < cs.length && cs.headD ' ' = '0' then none
  else
    let v := decVal cs
    if 255 < v then none else some v

/-- CPython `IPv4Address._ip_int_from_string`: exactly four octets joined by
dots, assembled big-endian. -/
def parseIPv4chars (cs : List Char) : Option Nat :=
  match splitOnChar '.' cs with
  | [a, b, c, d] =>
    match parseOctet a, parseOctet b, parseOctet c, parseOctet d with
    | some va, some vb, some vc, some vd =>
      some ((((((va <<< 8) ||| vb) <<< 8) ||| vc) <<< 8) ||| vd)
    | _, _, _, _ => none
  | _ => none

/-- Fuel-driven count of trailing zero bits of a positive number. -/
def trailzAux : Nat → Nat → Nat
  | 0, _ => 0
  | fuel + 1, n => if n % 2 = 1 then 0 else trailzAux fuel (n / 2) + 1

/-- Trailing zero bits (zero for zero; callers guard the zero case). -/
def trailz (n : Nat) : Nat := trailzAux n n

/-- CPython `_prefix_from_ip_int`: a mask integer is valid when it consists of
leading one bits followed by trailing zero bits; returns the count of ones. -/
def plenFromIpInt (width ipInt : Nat) : Option Nat :=
  let tz := if ipInt = 0 then width else min width (trailz ipInt)
  let p := width - tz
  if ipInt >>> tz = (1 <<< p) - 1 then some p else none

/-- CPython `_prefix_from_prefix_string`: ASCII digits only, value at most the
address width. -/
def plenFromDigits (maxLen : Nat) (cs : List Char) : Option Nat :=
  if cs.isEmpty then none
  else if !(cs.all Char.isDigit) then none
  else
    let v := decVal cs
    if maxLen < v then none else some v

/-- IPv4 mask part: a digit string prefix length, else a dotted quad read as a
netmask or, failing that, as a hostmask (CPython `_prefix_from_ip_string`). -/
def maskPlen4 (cs : List Char) : Option Nat :=
  match plenFromDigits 32 cs with
  | some p => some p
  | none =>
    match parseIPv4chars cs with
    | none => none
    | some ip =>
      match plenFromIpInt 32 ip with
      | some p => some p
      | none => plenFromIpInt 32 (ip ^^^ (2 ^ 32 - 1))

/-- IPv6 mask part: CPython `IPv6Network._make_netmask` only accepts a digit
string prefix length for string arguments. -/
def maskPlen6 (cs : List Char) : Option Nat :=
  plenFromDigits 128 cs

/-- CPython `IPv6Address._parse_hextet`: hexadecimal digits only, at most four
characters, nonempty. -/
def parseHextet (cs : List Char) : Option Nat :=
  if !(cs.all isHexChar) then none
  else if 4 < cs.length then none
  else if cs.isEmpty then none
  else some (cs.foldl (fun a c => a * 16 + hexVal c) 0)

/-- Accumulate hextets into the address integer, 16 bits at a time. -/
def foldHextets : List (List Char) → Nat → Option Nat
  | [], acc => some acc
  | p :: ps, acc =>
    match parseHextet p with
    | none => none
    | some v => foldHextets ps ((acc <<< 16) ||| v)

/-- CPython `IPv6Address._ip_int_from_string`: colon-separated hextets with at
most one `::` gap and an optional trailing embedded IPv4 address. -/
def parseIPv6core (cs : List Char) : Option Nat :=
  if cs.isEmpty then none
  else
    let parts0 := splitOnChar ':' cs
    if parts0.length < 3 then none
    else
      let partsO : Option (List (List Char)) :=
        match parts0.getLast? with
        | none => none
        | some last =>
          if last.contains '.' then
            match parseIPv4chars last with
            | none => none
            | some v4 =>
              some (parts0.dropLast ++
                [natToHex ((v4 >>> 16) &&& 65535), natToHex (v4 &&& 65535)])
          else some parts0
      match partsO with
      | none => none
      | some parts =>
        if 9 < parts.length then none
        else
          let n := parts.length
          let interior :=
            (List.range n).filter
              (fun i => decide (0 < i) && decide (i + 1 < n) &&
                (parts.getD i [':']).isEmpty)
          match interior with
          | [] =>
            if n ≠ 8 then none
            else if (parts.headD [':']).isEmpty then none
            else if (parts.getD (n - 1) [':']).isEmpty then none
            else foldHextets parts 0
          | [i] =>
            if (parts.headD [':']).isEmpty && i ≠ 1 then none
            else if (parts.getD (n - 1) [':']).isEmpty && i ≠ n - 2 then none
            else
              let partsHi := if (parts.headD [':']).isEmpty then i - 1 else i
              let partsLo0 := n - i - 1
              let partsLo :=
                if (parts.getD (n - 1) [':']).isEmpty then partsLo0 - 1 else partsLo0
              if 8 ≤ partsHi + partsLo then none
              else
                match foldHextets (parts.take partsHi) 0 with
                | none => none
                | some hi =>
                  foldHextets (parts.drop (n - partsLo))
                    (hi <<< (16 * (8 - (partsHi + partsLo))))
          | _ => none

/-- CPython `IPv6Address.__init__`: an optional `%scope` suffix is split off
first; the scope must be nonempty and contain no further `%`. -/
def parseIPv6Addr (cs : List Char) : Option Nat :=
  match partitionChar '%' cs with
  | (core, none) => parseIPv6core core
  | (core, some scope) =>
    if scope.isEmpty || scope.contains '%' then none
    else parseIPv6core core

/-- CPython `IPv4Interface(s)` acceptance: at most one slash; the address part
is a strict dotted quad; a present mask part is a prefix length or an IPv4
netmask/hostmask; an absent mask defaults to 32. -/
def isIPv4InterfaceStr (cs : List Char) : Bool :=
  match splitOnChar '/' cs with
  | [a] => (parseIPv4chars a).isSome
  | [a, m] => (parseIPv4chars a).isSome && (maskPlen4 m).isSome
  | _ => false

/-- CPython `IPv6Interface(s)` acceptance: at most one slash; the address part
is an IPv6 address with optional scope; a present mask part is a digit prefix
length; an absent mask defaults to 128. -/
def isIPv6InterfaceStr (cs : List Char) : Bool :=
  match splitOnChar '/' cs with
  | [a] => (parseIPv6Addr a).isSome
  | [a, m] => (parseIPv6Addr a).isSome && (maskPlen6 m).isSome
  | _ => false

/-- CPython `ipaddress.ip_interface(s)` succeeds exactly when the IPv4 or the
IPv6 interface parser accepts the string (app.py line 243). -/
def ip_interface_valid (s : String) : Bool :=
  isIPv4InterfaceStr s.data || isIPv6InterfaceStr s.data

/-! ## Data model (app.py session and the router device)

The Flask session stores four independent keys (app.py lines 182-185); each
handler guards on all four being present (lines 204, 235).  The router is
modelled as a fake device: a list of interfaces, a list of address bindings
(rows of `/ip/address`, each with a router-assigned `.id`), and a counter for
the next fresh id.  Faults select which router operations raise. -/

structure Credentials where
  host : String
  port : Nat
  username : String
  password : String
deriving DecidableEq

structure SessionStore where
  host : Option String
  port : Option Nat
  username : Option String
  password : Option String
deriving DecidableEq

/-- app.py line 204 / 235: `all(key in session for key in [...])`. -/
def SessionStore.hasAllKeys (s : SessionStore) : Bool :=
  s.host.isSome && s.port.isSome && s.username.isSome && s.password.isSome

/-- app.py lines 182-185: store the four credential keys in the session. -/
def storeCredentials (s : SessionStore) (c : Credentials) : SessionStore :=
  { s with host := some c.host, port := some c.port,
           username := some c.username, password := some c.password }

/-- Read back the stored credentials (what `get_api_pool`, lines 140-148,
reads from the session); fails when any key is missing. -/
def getCredentials (s : SessionStore) : Option Credentials :=
  match s.host, s.port, s.username, s.password with
  | some h, some p, some u, some pw => some ⟨h, p, u, pw⟩
  | _, _, _, _ => none

/-- `session.clear()` (app.py lines 194, 199). -/
def clearSession (_ : SessionStore) : SessionStore :=
  ⟨none, none, none, none⟩

structure NetIface where
  name : String
  itype : String
  running : Bool
deriving DecidableEq

/-- One row of the device's `/ip/address` table. -/
structure AddrBinding where
  rid : Nat
  interface : String
  address : String
deriving DecidableEq

structure Device where
  ifaces : List NetIface
  bindings : List AddrBinding
  nextId : Nat
deriving DecidableEq

/-- Fault injection for the fake router transport: which operation raises. -/
structure Faults where
  connectFails : Bool
  probeFails : Bool
  ifaceGetFails : Bool
  ipGetFails : Bool
  removeFails : Nat → Bool
  addFails : Bool

def noFaults : Faults :=
  ⟨false, false, false, false, fun _ => false, false⟩

/-- Router-protocol events, in the order the handler issues them. -/
inductive Event
  | connect
  | probe
  | getInterfaces
  | getAddresses
  | removeAddr (id : Nat)
  | addAddr (iface addr : String)
  | disconnect
deriving DecidableEq

/-- Errors the fake router can raise. -/
inductive RtErr
  | connectErr
  | probeErr
  | ifaceGetErr
  | ipGetErr
  | removeErr (id : Nat)
  | addErr
deriving DecidableEq

/-- Messages flashed by the handlers (app.py lines 165, 190, 227, 245, 260,
262), with the interpolated data carried as arguments. -/
inductive Msg
  | invalidPort
  | connectionFailed (e : RtErr)
  | errorConnecting (e : RtErr)
  | invalidIpFormat
  | applied (iface addr : String)
  | errorApplying (e : RtErr)
deriving DecidableEq

inductive Route
  | loginR
  | interfaceManagerR
deriving DecidableEq

/-- The row rendered for one interface (name, type, running, current IPs). -/
structure RenderedIface where
  name : String
  itype : String
  running : Bool
  ips : List String
deriving DecidableEq

inductive Page
  | loginPage
  | interfacePage (rows : List RenderedIface)
deriving DecidableEq

inductive Response
  | render (p : Page)
  | redirect (r : Route)
deriving DecidableEq

/-- Outcome of one handler invocation.  `result = .error e` means the Python
exception `e` escaped the handler unhandled (Flask would answer 500). -/
structure HOut where
  result : Except RtErr Response
  flashes : List Msg
  sess : SessionStore
  dev : Device
  events : List Event

/-- Does the handler return normally (no unhandled exception)? -/
def isOkB : Except RtErr Response → Bool
  | .ok _ => true
  | .error _ => false

/-! ## Handlers -/

/-- app.py lines 152-191, the POST branch of `login`: strip the form fields,
validate the port with `int` plus a 1..65535 range check (flash and re-render
on failure, no connection attempted), then probe the router; on probe success
store the credentials and disconnect; on connect or probe failure flash the
error and re-render the login page — note the pool is NOT disconnected on
those failure paths (no finally in this handler). -/
def login (hostF portF userF passF : String) (sess : SessionStore) (dev : Device)
    (f : Faults) : HOut :=
  let host := pyStrip hostF
  let portS := pyStrip portF
  let username := pyStrip userF
  let password := pyStrip passF
  match pyInt portS with
  | none => ⟨.ok (.render .loginPage), [.invalidPort], sess, dev, []⟩
  | some p =>
    if p < 1 ∨ 65535 < p then
      ⟨.ok (.render .loginPage), [.invalidPort], sess, dev, []⟩
    else if f.connectFails then
      ⟨.ok (.render .loginPage), [.connectionFailed .connectErr], sess, dev,
       [.connect]⟩
    else if f.probeFails then
      ⟨.ok (.render .loginPage), [.connectionFailed .probeErr], sess, dev,
       [.connect, .probe]⟩
    else
      ⟨.ok (.redirect .interfaceManagerR), [],
       storeCredentials sess ⟨host, p.toNat, username, password⟩, dev,
       [.connect, .probe, .disconnect]⟩

/-- app.py lines 197-200: `logout` clears the session and redirects to login. -/
def logout (sess : SessionStore) (dev : Device) : HOut :=
  ⟨.ok (.redirect .loginR), [], clearSession sess, dev, []⟩

/-- app.py lines 218-220: build the interface-name to address-list map by
folding `setdefault(...).append(...)` over the `/ip/address` rows. -/
def setdefaultAppend : List (String × List String) → String → String →
    List (String × List String)
  | [], k, v => [(k, [v])]
  | (k2, vs) :: rest, k, v =>
    if k2 = k then (k2, vs ++ [v]) :: rest
    else (k2, vs) :: setdefaultAppend rest k v

def buildIpMap (rows : List AddrBinding) : List (String × List String) :=
  rows.foldl (fun m row => setdefaultAppend m row.interface row.address) []

/-- app.py line 223: `ip_map.get(name, [])`. -/
def lookupD : List (String × List String) → String → List String
  | [], _ => []
  | (k2, vs) :: rest, k => if k2 = k then vs else lookupD rest k

/-- app.py lines 202-231, `interface_manager`: redirect to login when the
session lacks any credential key; otherwise connect, fetch the interface and
address tables, attach to each interface the address list of its name, and
render; any failure is caught, flashed, and turned into a redirect to login;
the `finally` block always disconnects the pool once it exists. -/
def interface_manager (sess : SessionStore) (dev : Device) (f : Faults) : HOut :=
  if ¬ sess.hasAllKeys then
    ⟨.ok (.redirect .loginR), [], sess, dev, []⟩
  else if f.connectFails then
    ⟨.ok (.redirect .loginR), [.errorConnecting .connectErr], sess, dev,
     [.connect, .disconnect]⟩
  else if f.ifaceGetFails then
    ⟨.ok (.redirect .loginR), [.errorConnecting .ifaceGetErr], sess, dev,
     [.connect, .getInterfaces, .disconnect]⟩
  else if f.ipGetFails then
    ⟨.ok (.redirect .loginR), [.errorConnecting .ipGetErr], sess, dev,
     [.connect, .getInterfaces, .getAddresses, .disconnect]⟩
  else
    let m := buildIpMap dev.bindings
    let rendered :=
      dev.ifaces.map (fun i => RenderedIface.mk i.name i.itype i.running (lookupD m i.name))
    ⟨.ok (.render (.interfacePage rendered)), [], sess, dev,
     [.connect, .getInterfaces, .getAddresses, .disconnect]⟩

/-- Remove the binding with the given router id (`ip_res.remove(id=...)`). -/
def removeId (dev : Device) (id : Nat) : Device :=
  { dev with bindings := dev.bindings.filter (fun b => b.rid != id) }

/-- `ip_res.add(address=..., interface=...)`: the device appends a row with a
fresh router-assigned id. -/
def addBinding (dev : Device) (iface addr : String) : Device :=
  { dev with bindings := dev.bindings ++ [⟨dev.nextId, iface, addr⟩],
             nextId := dev.nextId + 1 }

/-- app.py lines 254-256: iterate over the snapshot of `/ip/address` rows and
remove each row whose interface matches; a raising `remove` aborts the loop.
Returns the device after the removals that happened, the events issued, and
the error if one was raised. -/
def removeLoop (f : Faults) (iface : String) :
    Device → List AddrBinding → Device × List Event × Option RtErr
  | dev, [] => (dev, [], none)
  | dev, row :: rest =>
    if row.interface = iface then
      if f.removeFails row.rid then
        (dev, [.removeAddr row.rid], some (.removeErr row.rid))
      else
        match removeLoop f iface (removeId dev row.rid) rest with
        | (d, es, err) => (d, .removeAddr row.rid :: es, err)
    else removeLoop f iface dev rest

/-- app.py lines 233-266, `update_ip`: redirect to login when the session
lacks any credential key; strip and validate the submitted address with
`ipaddress.ip_interface`, flashing and redirecting to the interface page on
failure before any router contact; then open the connection (lines 248-249,
OUTSIDE the try block: a failure here escapes the handler and the pool is
never disconnected); inside try/except/finally fetch the address rows, delete
every row of the target interface, add the new address, flash success or the
caught error, always disconnect, and redirect to the interface page. -/
def update_ip (sess : SessionStore) (ifaceF newIpF : String) (dev : Device)
    (f : Faults) : HOut :=
  if ¬ sess.hasAllKeys then
    ⟨.ok (.redirect .loginR), [], sess, dev, []⟩
  else
    let iface := ifaceF
    let newIp := pyStrip newIpF
    if ¬ ip_interface_valid newIp then
      ⟨.ok (.redirect .interfaceManagerR), [.invalidIpFormat], sess, dev, []⟩
    else if f.connectFails then
      ⟨.error .connectErr, [], sess, dev, [.connect]⟩
    else if f.ipGetFails then
      ⟨.ok (.redirect .interfaceManagerR), [.errorApplying .ipGetErr], sess, dev,
       [.connect, .getAddresses, .disconnect]⟩
    else
      match removeLoop f iface dev dev.bindings with
      | (dev2, removeEvents, some e) =>
        ⟨.ok (.redirect .interfaceManagerR), [.errorApplying e], sess, dev2,
         [.connect, .getAddresses] ++ removeEvents ++ [.disconnect]⟩
      | (dev2, removeEvents, none) =>
        if f.addFails then
          ⟨.ok (.redirect .interfaceManagerR), [.errorApplying .addErr], sess, dev2,
           [.connect, .getAddresses] ++ removeEvents ++
             [.addAddr iface newIp, .disconnect]⟩
        else
          ⟨.ok (.redirect .interfaceManagerR), [.applied iface newIp], sess,
           addBinding dev2 iface newIp,
           [.connect, .getAddresses] ++ removeEvents ++
             [.addAddr iface newIp, .disconnect]⟩

/-! ## Helper lemmas -/

/-- When no `remove` raises, the removal loop over a snapshot `rows` removes
from the device exactly the ids of the snapshot rows whose interface matches,
emits one removal event per matching row in order, and reports no error. -/
theorem removeLoop_noFail (f : Faults) (hf : ∀ i, f.removeFails i = false)
    (iface : String) (rows : List AddrBinding) :
    ∀ dev : Device,
      removeLoop f iface dev rows =
        ({ dev with bindings := dev.bindings.filter (fun b =>
            !(rows.any (fun row => row.interface == iface && row.rid == b.rid))) },
         (rows.filter (fun row => row.interface == iface)).map
           (fun row => Event.removeAddr row.rid),
         none) := by
  induction rows with
  | nil => intro dev; simp [removeLoop]
  | cons row rest ih =>
    intro dev
    by_cases h : row.interface = iface
    · rw [removeLoop, if_pos h, hf row.rid]
      simp only [Bool.false_eq_true, if_false, ih (removeId dev row.rid)]
      simp only [Prod.mk.injEq]
      refine ⟨?_, ?_, trivial⟩
      · show ({ removeId dev row.rid with bindings := _ } : Device) = _
        simp only [removeId]
        congr 1
        rw [List.filter_filter]
        refine List.filter_congr (fun b _ => ?_)
        by_cases hb : b.rid = row.rid
        · simp [hb, h]
        · have hb2 : ¬ row.rid = b.rid := fun hh => hb hh.symm
          have e1 : (b.rid != row.rid) = true := by simpa using hb
          have e2 : (row.rid == b.rid) = false := by simpa using hb2
          simp [e1, e2, h]
      · simp [h]
    · rw [removeLoop, if_neg h, ih dev]
      simp only [Prod.mk.injEq]
      refine ⟨?_, ?_, trivial⟩
      · congr 1
        refine List.filter_congr (fun b _ => ?_)
        simp [h]
      · simp [h]

/-- With distinct router ids, removing by the ids of the matching snapshot
rows is the same as dropping every binding of the interface. -/
theorem bindings_after_removal (dev : Device) (iface : String)
    (hnd : (dev.bindings.map (fun b => b.rid)).Nodup) :
    dev.bindings.filter (fun b =>
        !(dev.bindings.any (fun row => row.interface == iface && row.rid == b.rid)))
      = dev.bindings.filter (fun b => !(b.interface == iface)) := by
  refine List.filter_congr (fun b hb => ?_)
  by_cases hbi : b.interface = iface
  · have : dev.bindings.any (fun row => row.interface == iface && row.rid == b.rid) = true := by
      rw [List.any_eq_true]
      exact ⟨b, hb, by simp [hbi]⟩
    simp [this, hbi]
  · have : dev.bindings.any (fun row => row.interface == iface && row.rid == b.rid) = false := by
      rw [Bool.eq_false_iff]
      intro hany
      rw [List.any_eq_true] at hany
      obtain ⟨row, hrow, hmatch⟩ := hany
      simp only [Bool.and_eq_true, beq_iff_eq] at hmatch
      have hrb : row = b := List.inj_on_of_nodup_map hnd hrow hb hmatch.2
      exact hbi (hrb ▸ hmatch.1)
    simp [this, hbi]

/-- Looking a key up after one `setdefault(...).append(...)` step. -/
theorem lookupD_setdefaultAppend (m : List (String × List String)) (k v k2 : String) :
    lookupD (setdefaultAppend m k v) k2 =
      if k = k2 then lookupD m k2 ++ [v] else lookupD m k2 := by
  induction m with
  | nil =>
    by_cases h : k = k2 <;> simp [setdefaultAppend, lookupD, h]
  | cons p rest ih =>
    obtain ⟨k3, vs⟩ := p
    by_cases h3 : k3 = k
    · subst h3
      by_cases h2 : k3 = k2 <;> simp [setdefaultAppend, lookupD, h2]
    · by_cases h2 : k3 = k2
      · subst h2
        have : ¬ k = k3 := fun hh => h3 hh.symm
        simp [setdefaultAppend, h3, lookupD, this]
      · simp [setdefaultAppend, h3, lookupD, h2, ih]

/-- The map built by the `setdefault` fold, looked up at a key, is the address
list of the rows of that interface, in row order. -/
theorem lookupD_buildIpMap_fold (rows : List AddrBinding) (k : String) :
    ∀ m, lookupD (rows.foldl (fun m row => setdefaultAppend m row.interface row.address) m) k
      = lookupD m k ++ (rows.filter (fun r => r.interface == k)).map (fun r => r.address) := by
  induction rows with
  | nil => intro m; simp
  | cons r rest ih =>
    intro m
    rw [List.foldl_cons, ih, lookupD_setdefaultAppend]
    by_cases h : r.interface = k <;> simp [h]

theorem lookupD_buildIpMap (rows : List AddrBinding) (k : String) :
    lookupD (buildIpMap rows) k
      = (rows.filter (fun r => r.interface == k)).map (fun r => r.address) := by
  have h := lookupD_buildIpMap_fold rows k []
  simpa [buildIpMap, lookupD] using h

/-- The last element of a list ending in a two-element suffix. -/
theorem getLast?_append_pair {α : Type} (l : List α) (a b : α) :
    (l ++ [a, b]).getLast? = some b := by
  have h : l ++ [a, b] = (l ++ [a]) ++ [b] := by simp
  rw [h, List.getLast?_concat]

/-! ## Concrete fixtures for witnesses and counterexamples -/

def emptySession : SessionStore := ⟨none, none, none, none⟩

def sess0 : SessionStore := ⟨some "10.0.0.1", some 8728, some "admin", some "x"⟩

def dev0 : Device :=
  ⟨[⟨"ether1", "ether", true⟩, ⟨"ether2", "ether", true⟩],
   [⟨0, "ether1", "192.168.88.1/24"⟩, ⟨1, "ether2", "10.0.0.2/8"⟩], 2⟩

def probeFaults : Faults := { noFaults with probeFails := true }

def connectFaults : Faults := { noFaults with connectFails := true }

def addFaults : Faults := { noFaults with addFails := true }

def ipGetFaults : Faults := { noFaults with ipGetFails := true }

/-! ## Claims -/

/-- Claim C6: a request to list-interfaces or submit-address-change whose
session lacks any stored credential key performs no router operation (empty
event trace, device untouched) and responds with a redirect to the login
page. -/
theorem claim_C6 (sess : SessionStore) (iface nip : String) (dev : Device)
    (f : Faults) (hs : sess.hasAllKeys = false) :
    interface_manager sess dev f = ⟨.ok (.redirect .loginR), [], sess, dev, []⟩ ∧
    update_ip sess iface nip dev f = ⟨.ok (.redirect .loginR), [], sess, dev, []⟩ := by
  constructor
  · simp [interface_manager, hs]
  · simp [update_ip, hs]

/-- Witness for C6 at a session with no stored credentials. -/
theorem claim_C6_witness :
    interface_manager emptySession dev0 noFaults =
      ⟨.ok (.redirect .loginR), [], emptySession, dev0, []⟩ ∧
    update_ip emptySession "ether1" "192.168.88.5/24" dev0 noFaults =
      ⟨.ok (.redirect .loginR), [], emptySession, dev0, []⟩ :=
  claim_C6 emptySession "ether1" "192.168.88.5/24" dev0 noFaults rfl

/-- Claim C7: storing credentials then reading them back returns exactly the
stored credentials; after clearing (logout) the read fails; clearing is
idempotent; and a successful login stores exactly the submitted (stripped)
form fields with the parsed port. -/
theorem claim_C7 :
    (∀ (s : SessionStore) (c : Credentials),
      getCredentials (storeCredentials s c) = some c) ∧
    (∀ s : SessionStore, getCredentials (clearSession s) = none) ∧
    (∀ s : SessionStore, clearSession (clearSession s) = clearSession s) ∧
    (∀ (s : SessionStore) (dev : Device), (logout s dev).sess = clearSession s) ∧
    (∀ (hF pF uF pwF : String) (s : SessionStore) (dev : Device) (n : Int),
      pyInt (pyStrip pF) = some n → 1 ≤ n → n ≤ 65535 →
        getCredentials (login hF pF uF pwF s dev noFaults).sess =
          some ⟨pyStrip hF, n.toNat, pyStrip uF, pyStrip pwF⟩) := by
  refine ⟨?_, ?_, ?_, ?_, ?_⟩
  · intro s c; cases c; simp [storeCredentials, getCredentials]
  · intro s; rfl
  · intro s; rfl
  · intro s dev; rfl
  · intro hF pF uF pwF s dev n hpy h1 h2
    simp only [login, hpy]
    rw [if_neg (show ¬ (n < 1 ∨ 65535 < n) by omega)]
    simp [noFaults, storeCredentials, getCredentials]

/-- Witness for C7's login conjunct at concrete credentials. -/
theorem claim_C7_witness :
    getCredentials (login "10.0.0.1" "8728" "admin" "x" emptySession dev0 noFaults).sess =
      some ⟨"10.0.0.1", 8728, "admin", "x"⟩ :=
  claim_C7.2.2.2.2 "10.0.0.1" "8728" "admin" "x" emptySession dev0 8728 rfl
    (by decide) (by decide)

/-- Claim C9: a successful interface listing renders, for every interface of
the device and in device order, exactly the addresses of the freshly fetched
binding rows whose interface field matches that interface's name (an
interface with no matching row gets the empty list), and nothing else. -/
theorem claim_C9 (sess : SessionStore) (dev : Device) (f : Faults)
    (hs : sess.hasAllKeys = true) (hcf : f.connectFails = false)
    (hif : f.ifaceGetFails = false) (hgf : f.ipGetFails = false) :
    interface_manager sess dev f =
      ⟨.ok (.render (.interfacePage (dev.ifaces.map (fun i =>
          ⟨i.name, i.itype, i.running,
           (dev.bindings.filter (fun b => b.interface == i.name)).map
             (fun b => b.address)⟩)))),
       [], sess, dev, [.connect, .getInterfaces, .getAddresses, .disconnect]⟩ := by
  simp [interface_manager, hs, hcf, hif, hgf, lookupD_buildIpMap]

/-- Witness for C9 on a fake device with two interfaces and two bindings. -/
theorem claim_C9_witness :
    interface_manager sess0 dev0 noFaults =
      ⟨.ok (.render (.interfacePage
          [⟨"ether1", "ether", true, ["192.168.88.1/24"]⟩,
           ⟨"ether2", "ether", true, ["10.0.0.2/8"]⟩])),
       [], sess0, dev0, [.connect, .getInterfaces, .getAddresses, .disconnect]⟩ := by
  have h := claim_C9 sess0 dev0 noFaults rfl rfl rfl rfl
  simpa using h

/-- Claim C10: when the router connection of submit-address-change succeeds,
the handler leaves the stored session credentials unchanged and responds with
a redirect to the interface listing on every path, in particular when the
delete or add mutation raises; a query or connection error during interface
listing instead redirects to the login page (also without touching the
session). -/
theorem claim_C10 :
    (∀ (sess : SessionStore) (iface nip : String) (dev : Device) (f : Faults),
      sess.hasAllKeys = true → ip_interface_valid (pyStrip nip) = true →
      f.connectFails = false →
        (update_ip sess iface nip dev f).sess = sess ∧
        (update_ip sess iface nip dev f).result = .ok (.redirect .interfaceManagerR)) ∧
    (∀ (sess : SessionStore) (dev : Device) (f : Faults),
      sess.hasAllKeys = true →
      (f.connectFails = true ∨ f.ifaceGetFails = true ∨ f.ipGetFails = true) →
        (interface_manager sess dev f).sess = sess ∧
        (interface_manager sess dev f).result = .ok (.redirect .loginR)) := by
  constructor
  · intro sess iface nip dev f hs hip hcf
    rw [update_ip]
    simp only [hs, hip, hcf]
    simp only [Bool.not_true, Bool.false_eq_true, if_false, Bool.not_false, if_true]
    by_cases hg : f.ipGetFails
    · simp [hg]
    · simp only [hg, Bool.false_eq_true, if_false]
      rcases hrl : removeLoop f iface dev dev.bindings with ⟨d2, evs, err⟩
      cases err
      · by_cases ha : f.addFails <;> simp [ha]
      · simp
  · intro sess dev f hs hf
    rw [interface_manager]
    simp only [hs, Bool.not_true, Bool.false_eq_true, if_false]
    rcases hf with hf | hf | hf
    · simp [hf]
    · by_cases hc : f.connectFails <;> simp [hc, hf]
    · by_cases hc : f.connectFails
      · simp [hc]
      · by_cases hi : f.ifaceGetFails <;> simp [hc, hi, hf]

/-- Witness for C10: a failing add mutation keeps the session and redirects to
the interface page, while a failing address query in the listing redirects to
login. -/
theorem claim_C10_witness :
    (update_ip sess0 "ether1" "192.168.88.5/24" dev0 addFaults).sess = sess0 ∧
    (update_ip sess0 "ether1" "192.168.88.5/24" dev0 addFaults).result =
      .ok (.redirect .interfaceManagerR) ∧
    (interface_manager sess0 dev0 ipGetFaults).result = .ok (.redirect .loginR) := by
  have h1 := claim_C10.1 sess0 "ether1" "192.168.88.5/24" dev0 addFaults rfl
    (by decide) rfl
  have h2 := claim_C10.2 sess0 dev0 ipGetFaults rfl (Or.inr (Or.inr rfl))
  exact ⟨h1.1, h1.2, h2.2⟩

/-- Counterexample to claim C1 as stated: the string `192.168.1.1` has no
prefix length, yet `ipaddress.ip_interface` accepts it (defaulting to /32),
so submit-address-change does not reject it with a validation message but
proceeds to contact the router and applies the change. -/
theorem claim_C1_counterexample :
    ip_interface_valid "192.168.1.1" = true ∧
    (update_ip sess0 "ether1" "192.168.1.1" dev0 noFaults).flashes =
      [.applied "ether1" "192.168.1.1"] ∧
    Event.connect ∈ (update_ip sess0 "ether1" "192.168.1.1" dev0 noFaults).events := by
  refine ⟨by decide, by decide, by decide⟩

/-- Claim C1 (amended): the submitted address is accepted exactly when
CPython `ipaddress.ip_interface` parses it — a valid IPv4 or IPv6 address
with an OPTIONAL prefix length (an absent prefix defaults to the full host
mask, and an IPv4 netmask/hostmask is also accepted as the prefix part);
malformed strings (out-of-range octet, out-of-range or wrong-family prefix,
garbage) are rejected with a validation message and without any router
event, and the router is contacted only after validation succeeds. -/
theorem claim_C1 :
    (∀ (sess : SessionStore) (iface nip : String) (dev : Device) (f : Faults),
      sess.hasAllKeys = true → ip_interface_valid (pyStrip nip) = false →
        update_ip sess iface nip dev f =
          ⟨.ok (.redirect .interfaceManagerR), [.invalidIpFormat], sess, dev, []⟩) ∧
    (∀ (sess : SessionStore) (iface nip : String) (dev : Device) (f : Faults),
      sess.hasAllKeys = true → ip_interface_valid (pyStrip nip) = true →
        (update_ip sess iface nip dev f).events.head? = some .connect) ∧
    ip_interface_valid "192.168.88.5/24" = true ∧
    ip_interface_valid "::1/64" = true ∧
    ip_interface_valid "192.168.1.1" = true ∧
    ip_interface_valid "1.2.3.4/255.255.255.0" = true ∧
    ip_interface_valid "300.1.1.1/24" = false ∧
    ip_interface_valid "1.2.3.4/33" = false ∧
    ip_interface_valid "192.168.1.1/64" = false ∧
    ip_interface_valid "1.2.3/24" = false ∧
    ip_interface_valid "abc" = false ∧
    ip_interface_valid "" = false := by
  refine ⟨?_, ?_, by decide, by decide, by decide, by decide, by decide,
    by decide, by decide, by decide, by decide, by decide⟩
  · intro sess iface nip dev f hs hip
    simp [update_ip, hs, hip]
  · intro sess iface nip dev f hs hip
    rw [update_ip]
    simp only [hs, hip, Bool.not_true, Bool.false_eq_true, if_false,
      Bool.not_false, if_true]
    by_cases hc : f.connectFails
    · simp [hc]
    · simp only [hc, Bool.false_eq_true, if_false]
      by_cases hg : f.ipGetFails
      · simp [hg]
      · simp only [hg, Bool.false_eq_true, if_false]
        rcases hrl : removeLoop f iface dev dev.bindings with ⟨d2, evs, err⟩
        cases err
        · by_cases ha : f.addFails <;> simp [ha]
        · simp

/-- Witness for C1: a malformed string is rejected with the validation flash
and an empty event trace; a well-formed CIDR string reaches the router. -/
theorem claim_C1_witness :
    update_ip sess0 "ether1" "not-an-ip" dev0 noFaults =
      ⟨.ok (.redirect .interfaceManagerR), [.invalidIpFormat], sess0, dev0, []⟩ ∧
    (update_ip sess0 "ether1" "192.168.88.5/24" dev0 noFaults).events.head? =
      some .connect :=
  ⟨claim_C1.1 sess0 "ether1" "not-an-ip" dev0 noFaults rfl (by decide),
   claim_C1.2.1 sess0 "ether1" "192.168.88.5/24" dev0 noFaults rfl (by decide)⟩

/-- Counterexample to claim C2 as stated: in the login handler, when the
connection opens but the probe read raises, the except branch flashes the
error and re-renders, and no disconnect is ever issued (app.py lines 168-191
have no finally; `pool.disconnect()` is only on the success path). -/
theorem claim_C2_counterexample :
    (login "10.0.0.1" "8728" "admin" "x" emptySession dev0 probeFaults).events =
      [.connect, .probe] ∧
    Event.disconnect ∉
      (login "10.0.0.1" "8728" "admin" "x" emptySession dev0 probeFaults).events ∧
    isOkB (login "10.0.0.1" "8728" "admin" "x" emptySession dev0 probeFaults).result
      = true := by
  refine ⟨by decide, by decide, by decide⟩

/-- Claim C2 (amended): the interface listing releases the connection on
every path (its finally block); submit-address-change releases it on every
path on which the connection itself was opened successfully (its
try/finally); the login probe releases it only when the whole probe
succeeds — on a failing probe (or connect) the pool is leaked, and a connect
failure in submit-address-change escapes without a release. -/
theorem claim_C2 :
    (∀ (sess : SessionStore) (dev : Device) (f : Faults),
      sess.hasAllKeys = true →
        (interface_manager sess dev f).events.getLast? = some .disconnect) ∧
    (∀ (sess : SessionStore) (iface nip : String) (dev : Device) (f : Faults),
      sess.hasAllKeys = true → ip_interface_valid (pyStrip nip) = true →
      f.connectFails = false →
        (update_ip sess iface nip dev f).events.getLast? = some .disconnect) ∧
    (∀ (hF pF uF pwF : String) (s : SessionStore) (dev : Device) (n : Int),
      pyInt (pyStrip pF) = some n → 1 ≤ n → n ≤ 65535 →
        (login hF pF uF pwF s dev noFaults).events.getLast? = some .disconnect) := by
  refine ⟨?_, ?_, ?_⟩
  · intro sess dev f hs
    rw [interface_manager]
    simp only [hs, Bool.not_true, Bool.false_eq_true, if_false]
    by_cases hc : f.connectFails
    · simp [hc]
    · by_cases hi : f.ifaceGetFails
      · simp [hc, hi]
      · by_cases hg : f.ipGetFails <;> simp [hc, hi, hg]
  · intro sess iface nip dev f hs hip hcf
    rw [update_ip]
    simp only [hs, hip, hcf, Bool.not_true, Bool.false_eq_true, if_false,
      Bool.not_false, if_true]
    by_cases hg : f.ipGetFails
    · simp [hg]
    · simp only [hg, Bool.false_eq_true, if_false]
      rcases hrl : removeLoop f iface dev dev.bindings with ⟨d2, evs, err⟩
      cases err
      · by_cases ha : f.addFails <;>
          · simp [ha]
            rw [← List.cons_append, getLast?_append_pair]
      · simp only []
        simp
        rw [← List.cons_append, List.getLast?_concat]
  · intro hF pF uF pwF s dev n hpy h1 h2
    simp only [login, hpy]
    rw [if_neg (show ¬ (n < 1 ∨ 65535 < n) by omega)]
    simp [noFaults]

/-- Witness for C2: the three guaranteed-release paths at concrete inputs. -/
theorem claim_C2_witness :
    (interface_manager sess0 dev0 noFaults).events.getLast? = some .disconnect ∧
    (update_ip sess0 "ether1" "192.168.88.5/24" dev0 addFaults).events.getLast? =
      some .disconnect ∧
    (login "10.0.0.1" "8728" "admin" "x" emptySession dev0 noFaults).events.getLast? =
      some .disconnect :=
  ⟨claim_C2.1 sess0 dev0 noFaults rfl,
   claim_C2.2.1 sess0 "ether1" "192.168.88.5/24" dev0 addFaults rfl (by decide) rfl,
   claim_C2.2.2 "10.0.0.1" "8728" "admin" "x" emptySession dev0 8728 rfl
     (by decide) (by decide)⟩

/-- Counterexample to claim C3 as stated: in submit-address-change the
connection is opened on lines 248-249, OUTSIDE the try block that starts at
line 252, so a connection failure there escapes the handler unhandled
(Flask would answer 500) instead of being caught and flashed. -/
theorem claim_C3_counterexample :
    (update_ip sess0 "ether1" "192.168.88.5/24" dev0 connectFaults).result =
      .error .connectErr := by
  rfl

/-- Claim C3 (amended): the login and interface-listing handlers (and logout)
catch every router error and return a normal response; submit-address-change
catches every error raised inside its mutation phase, but an error raised
while opening its connection escapes the handler. -/
theorem claim_C3 :
    (∀ (hF pF uF pwF : String) (s : SessionStore) (dev : Device) (f : Faults),
      isOkB (login hF pF uF pwF s dev f).result = true) ∧
    (∀ (sess : SessionStore) (dev : Device) (f : Faults),
      isOkB (interface_manager sess dev f).result = true) ∧
    (∀ (sess : SessionStore) (dev : Device),
      isOkB (logout sess dev).result = true) ∧
    (∀ (sess : SessionStore) (iface nip : String) (dev : Device) (f : Faults),
      f.connectFails = false →
        isOkB (update_ip sess iface nip dev f).result = true) := by
  refine ⟨?_, ?_, ?_, ?_⟩
  · intro hF pF uF pwF s dev f
    rw [login]
    rcases pyInt (pyStrip pF) with _ | n
    · rfl
    · by_cases h1 : (n < 1 ∨ 65535 < n)
      · simp [h1, isOkB]
      · by_cases hc : f.connectFails
        · simp [h1, hc, isOkB]
        · by_cases hp : f.probeFails <;> simp [h1, hc, hp, isOkB]
  · intro sess dev f
    rw [interface_manager]
    by_cases hs : sess.hasAllKeys
    · by_cases hc : f.connectFails
      · simp [hs, hc, isOkB]
      · by_cases hi : f.ifaceGetFails
        · simp [hs, hc, hi, isOkB]
        · by_cases hg : f.ipGetFails <;> simp [hs, hc, hi, hg, isOkB]
    · simp [hs, isOkB]
  · intro sess dev; rfl
  · intro sess iface nip dev f hcf
    rw [update_ip]
    by_cases hs : sess.hasAllKeys
    · by_cases hip : ip_interface_valid (pyStrip nip)
      · simp only [hs, hip, hcf, Bool.not_true, Bool.false_eq_true, if_false,
          Bool.not_false, if_true]
        by_cases hg : f.ipGetFails
        · simp [hg, isOkB]
        · simp only [hg, Bool.false_eq_true, if_false]
          rcases hrl : removeLoop f iface dev dev.bindings with ⟨d2, evs, err⟩
          cases err
          · by_cases ha : f.addFails <;> simp [ha, isOkB]
          · simp [isOkB]
      · simp [hs, hip, isOkB]
    · simp [hs, isOkB]

/-- Witness for C3's hypothesis conjunct: a failing add mutation is caught. -/
theorem claim_C3_witness :
    isOkB (update_ip sess0 "ether1" "192.168.88.5/24" dev0 addFaults).result = true :=
  claim_C3.2.2.2 sess0 "ether1" "192.168.88.5/24" dev0 addFaults rfl

/-- Claim C4: with distinct router ids, a fully successful address change
first deletes exactly the bindings of the target interface (one removal event
per matching row, in order, before the single add event), then creates one
binding with the new CIDR; afterwards the device holds exactly one binding
for that interface, equal to the new value, and the bindings of every other
interface are unchanged. -/
theorem claim_C4 (sess : SessionStore) (iface nip : String) (dev : Device)
    (f : Faults) (hs : sess.hasAllKeys = true)
    (hip : ip_interface_valid (pyStrip nip) = true)
    (hnd : (dev.bindings.map (fun b => b.rid)).Nodup)
    (hcf : f.connectFails = false) (hgf : f.ipGetFails = false)
    (hrf : ∀ i, f.removeFails i = false) (haf : f.addFails = false) :
    (update_ip sess iface nip dev f).result = .ok (.redirect .interfaceManagerR) ∧
    (update_ip sess iface nip dev f).flashes = [.applied iface (pyStrip nip)] ∧
    (update_ip sess iface nip dev f).dev.bindings.filter
        (fun b => b.interface == iface) = [⟨dev.nextId, iface, pyStrip nip⟩] ∧
    (∀ n, n ≠ iface →
      (update_ip sess iface nip dev f).dev.bindings.filter
          (fun b => b.interface == n)
        = dev.bindings.filter (fun b => b.interface == n)) ∧
    (update_ip sess iface nip dev f).events =
      [.connect, .getAddresses] ++
        (dev.bindings.filter (fun row => row.interface == iface)).map
          (fun row => Event.removeAddr row.rid) ++
        [.addAddr iface (pyStrip nip), .disconnect] := by
  have hval : update_ip sess iface nip dev f =
      ⟨.ok (.redirect .interfaceManagerR), [.applied iface (pyStrip nip)], sess,
       addBinding
         { dev with bindings :=
             dev.bindings.filter (fun b => !(b.interface == iface)) }
         iface (pyStrip nip),
       [.connect, .getAddresses] ++
         (dev.bindings.filter (fun row => row.interface == iface)).map
           (fun row => Event.removeAddr row.rid) ++
         [.addAddr iface (pyStrip nip), .disconnect]⟩ := by
    rw [update_ip]
    simp only [hs, hip, hcf, hgf, Bool.not_true, Bool.false_eq_true, if_false,
      Bool.not_false, if_true]
    rw [removeLoop_noFail f hrf iface dev.bindings dev,
      bindings_after_removal dev iface hnd]
    simp [haf]
  rw [hval]
  refine ⟨rfl, rfl, ?_, ?_, rfl⟩
  · show (addBinding _ iface (pyStrip nip)).bindings.filter _ = _
    simp only [addBinding, List.filter_append]
    rw [List.filter_filter]
    have hz : (dev.bindings.filter
        (fun b => (b.interface == iface) && !(b.interface == iface))) = [] := by
      have h0 : ∀ b : AddrBinding,
          ((b.interface == iface) && !(b.interface == iface)) = (fun (_ : AddrBinding) => false) b := by
        intro b; cases hb : (b.interface == iface) <;> simp [hb]
      rw [List.filter_congr (fun b _ => h0 b)]
      simp
    rw [hz]
    simp
  · intro n hn
    have hni : ¬ iface = n := fun h => hn h.symm
    show (addBinding _ iface (pyStrip nip)).bindings.filter _ = _
    simp only [addBinding, List.filter_append]
    have h2 : ([(⟨dev.nextId, iface, pyStrip nip⟩ : AddrBinding)]).filter
        (fun b => b.interface == n) = [] := by
      simp [hni]
    rw [h2, List.append_nil, List.filter_filter]
    refine List.filter_congr (fun b _ => ?_)
    by_cases hbn : b.interface = n
    · have hbi : (b.interface == iface) = false := by
        rw [hbn]
        simp [hn]
      simp [hbn, hbi, hn]
    · simp [hbn]

/-- Witness for C4 at the spec's own scenario: afterwards ether1 holds
exactly the new binding and ether2's bindings are untouched. -/
theorem claim_C4_witness :
    (update_ip sess0 "ether1" "192.168.88.5/24" dev0 noFaults).dev.bindings.filter
        (fun b => b.interface == "ether1") = [⟨2, "ether1", "192.168.88.5/24"⟩] ∧
    (update_ip sess0 "ether1" "192.168.88.5/24" dev0 noFaults).dev.bindings.filter
        (fun b => b.interface == "ether2")
      = dev0.bindings.filter (fun b => b.interface == "ether2") ∧
    (update_ip sess0 "ether1" "192.168.88.5/24" dev0 noFaults).flashes =
      [.applied "ether1" "192.168.88.5/24"] := by
  have h := claim_C4 sess0 "ether1" "192.168.88.5/24" dev0 noFaults rfl
    (by decide) (by decide) rfl rfl (fun _ => rfl) rfl
  exact ⟨h.2.2.1, h.2.2.2.1 "ether2" (by decide), h.2.1⟩

/-- Claim C5: when every delete succeeds but the add raises, the handler
surfaces a mutation-error flash (not a silent success) and the device is left
with zero bindings for the target interface — the documented non-atomicity. -/
theorem claim_C5 (sess : SessionStore) (iface nip : String) (dev : Device)
    (f : Faults) (hs : sess.hasAllKeys = true)
    (hip : ip_interface_valid (pyStrip nip) = true)
    (hnd : (dev.bindings.map (fun b => b.rid)).Nodup)
    (hcf : f.connectFails = false) (hgf : f.ipGetFails = false)
    (hrf : ∀ i, f.removeFails i = false) (haf : f.addFails = true) :
    (update_ip sess iface nip dev f).result = .ok (.redirect .interfaceManagerR) ∧
    (update_ip sess iface nip dev f).flashes = [.errorApplying .addErr] ∧
    (update_ip sess iface nip dev f).dev.bindings.filter
        (fun b => b.interface == iface) = [] ∧
    (update_ip sess iface nip dev f).events =
      [.connect, .getAddresses] ++
        (dev.bindings.filter (fun row => row.interface == iface)).map
          (fun row => Event.removeAddr row.rid) ++
        [.addAddr iface (pyStrip nip), .disconnect] := by
  have hval : update_ip sess iface nip dev f =
      ⟨.ok (.redirect .interfaceManagerR), [.errorApplying .addErr], sess,
       { dev with bindings :=
           dev.bindings.filter (fun b => !(b.interface == iface)) },
       [.connect, .getAddresses] ++
         (dev.bindings.filter (fun row => row.interface == iface)).map
           (fun row => Event.removeAddr row.rid) ++
         [.addAddr iface (pyStrip nip), .disconnect]⟩ := by
    rw [update_ip]
    simp only [hs, hip, hcf, hgf, Bool.not_true, Bool.false_eq_true, if_false,
      Bool.not_false, if_true]
    rw [removeLoop_noFail f hrf iface dev.bindings dev,
      bindings_after_removal dev iface hnd]
    simp [haf]
  rw [hval]
  refine ⟨rfl, rfl, ?_, rfl⟩
  show (dev.bindings.filter _).filter _ = _
  rw [List.filter_filter]
  have h0 : ∀ b : AddrBinding,
      ((b.interface == iface) && !(b.interface == iface)) = (fun (_ : AddrBinding) => false) b := by
    intro b; cases hb : (b.interface == iface) <;> simp [hb]
  rw [List.filter_congr (fun b _ => h0 b)]
  simp

/-- Witness for C5 at the spec's own scenario: ether1 ends with zero bindings
and the error is flashed. -/
theorem claim_C5_witness :
    (update_ip sess0 "ether1" "192.168.88.5/24" dev0 addFaults).flashes =
      [.errorApplying .addErr] ∧
    (update_ip sess0 "ether1" "192.168.88.5/24" dev0 addFaults).dev.bindings.filter
        (fun b => b.interface == "ether1") = [] := by
  have h := claim_C5 sess0 "ether1" "192.168.88.5/24" dev0 addFaults rfl
    (by decide) (by decide) rfl rfl (fun _ => rfl) rfl
  exact ⟨h.2.1, h.2.2.1⟩

/-- Claim C8: submit-login rejects a port string that does not parse as an
integer, or whose integer is outside 1..65535, with the validation flash and
no connection attempt; it accepts exactly the in-range integers — in
particular the strings 0, 65536 and a non-numeric string are rejected while 1
and 65535 are accepted (the connection is then attempted). -/
theorem claim_C8 :
    (∀ (hF uF pwF pF : String) (s : SessionStore) (dev : Device) (f : Faults),
      pyInt (pyStrip pF) = none →
        login hF pF uF pwF s dev f =
          ⟨.ok (.render .loginPage), [.invalidPort], s, dev, []⟩) ∧
    (∀ (hF uF pwF pF : String) (s : SessionStore) (dev : Device) (f : Faults)
        (n : Int),
      pyInt (pyStrip pF) = some n → (n < 1 ∨ 65535 < n) →
        login hF pF uF pwF s dev f =
          ⟨.ok (.render .loginPage), [.invalidPort], s, dev, []⟩) ∧
    (∀ (hF uF pwF pF : String) (s : SessionStore) (dev : Device) (f : Faults)
        (n : Int),
      pyInt (pyStrip pF) = some n → 1 ≤ n → n ≤ 65535 →
        (login hF pF uF pwF s dev f).flashes ≠ [.invalidPort] ∧
        (login hF pF uF pwF s dev f).events.head? = some .connect) ∧
    pyInt "0" = some 0 ∧ pyInt "65536" = some 65536 ∧ pyInt "abc" = none ∧
    pyInt "1" = some 1 ∧ pyInt "65535" = some 65535 := by
  refine ⟨?_, ?_, ?_, rfl, rfl, rfl, rfl, rfl⟩
  · intro hF uF pwF pF s dev f hpy
    simp [login, hpy]
  · intro hF uF pwF pF s dev f n hpy hrange
    simp only [login, hpy]
    rw [if_pos hrange]
  · intro hF uF pwF pF s dev f n hpy h1 h2
    simp only [login, hpy]
    rw [if_neg (show ¬ (n < 1 ∨ 65535 < n) by omega)]
    by_cases hc : f.connectFails
    · simp [hc]
    · by_cases hp : f.probeFails <;> simp [hc, hp]

/-- Witness for C8: the non-numeric string is rejected without events; the
default API port string is accepted and the connection attempted. -/
theorem claim_C8_witness :
    login "10.0.0.1" "abc" "admin" "x" emptySession dev0 noFaults =
      ⟨.ok (.render .loginPage), [.invalidPort], emptySession, dev0, []⟩ ∧
    (login "10.0.0.1" "8728" "admin" "x" emptySession dev0 noFaults).events.head? =
      some .connect :=
  ⟨claim_C8.1 "10.0.0.1" "admin" "x" "abc" emptySession dev0 noFaults rfl,
   (claim_C8.2.2.1 "10.0.0.1" "admin" "x" "8728" emptySession dev0 noFaults 8728
      rfl (by decide) (by decide)).2⟩
